import Mathlib

/-!
Shallow embedding of the InvestAI analysis orchestration pipeline, translated
from the agent framework and `AnalysisOrchestrator.analyze_stock` given in
`investai-product-spec.md`, together with the request/strategy record types of
the frontend type module.
-/

namespace InvestAI

/-- Dynamic values: the payload dictionaries the agents exchange are untyped
maps from string keys to nested values (numbers are modelled as rationals). -/
inductive Value where
  | nullV : Value
  | str : String → Value
  | num : ℚ → Value
  | boolV : Bool → Value
  | dict : List (String × Value) → Value
  | listV : List Value → Value

/-- `AgentTask` dataclass: one unit of work handed to an agent. -/
structure AgentTask where
  task_id : String
  task_type : String
  input_data : List (String × Value)
  priority : Int := 1
  timeout : Int := 300

/-- `AgentResult` dataclass: outcome of one agent execution.  The source
declares `error_msg: str = None` and `execution_time: float = 0` as defaults. -/
structure AgentResult where
  task_id : String
  success : Bool
  data : List (String × Value)
  error_msg : Option String := none
  execution_time : ℚ := 0

/-- Python dict assignment `d[k] = v`: overwrite the binding if the key is
present, otherwise append it (insertion order preserved). -/
def dictSet (d : List (String × Value)) (k : String) (v : Value) :
    List (String × Value) :=
  if (d.lookup k).isSome then
    d.map (fun p => if p.1 = k then (k, v) else p)
  else
    d ++ [(k, v)]

/-- The external data-source collaborators of the data-collection agent:
`_fetch_price_data`, `_fetch_financial_data`, `_fetch_news_data`.  Each call
either returns a payload or raises (modelled as `Except.error` carrying the
exception message).  The argument is the value found under the key
`stock_code` of the task input, `none` when the key is absent. -/
structure DataSources where
  fetch_price_data : Option Value → Except String Value
  fetch_financial_data : Option Value → Except String Value
  fetch_news_data : Option Value → Except String Value

/-- One iteration of the `for data_type in data_types` loop of
`DataCollectionAgent.execute`: a string entry equal to one of the three known
type names triggers the corresponding fetch and stores its output under the
matching key; any other entry matches no branch and is skipped.  An exception
raised by a fetch propagates. -/
def collectStep (ds : DataSources) (sc : Option Value) (dv : Value)
    (acc : List (String × Value)) : Except String (List (String × Value)) :=
  match dv with
  | Value.str "price" =>
    match ds.fetch_price_data sc with
    | Except.error e => Except.error e
    | Except.ok v => Except.ok (dictSet acc "price_data" v)
  | Value.str "financial" =>
    match ds.fetch_financial_data sc with
    | Except.error e => Except.error e
    | Except.ok v => Except.ok (dictSet acc "financial_data" v)
  | Value.str "news" =>
    match ds.fetch_news_data sc with
    | Except.error e => Except.error e
    | Except.ok v => Except.ok (dictSet acc "news_data" v)
  | _ => Except.ok acc

/-- The whole collection loop, folding `collectStep` over the requested data
types, starting from the empty `result_data` dict. -/
def collectLoop (ds : DataSources) (sc : Option Value) :
    List Value → List (String × Value) → Except String (List (String × Value))
  | [], acc => Except.ok acc
  | dv :: rest, acc =>
    match collectStep ds sc dv acc with
    | Except.error e => Except.error e
    | Except.ok acc2 => collectLoop ds sc rest acc2

/-- The default `data_types` list of `DataCollectionAgent.execute`:
`['price', 'financial', 'news']`. -/
def defaultDataTypes : List Value :=
  [Value.str "price", Value.str "financial", Value.str "news"]

/-- Resolution of `task.input_data.get('data_types', ['price', 'financial',
'news'])` followed by the `for` iteration requirement: an absent key yields
the default list, a present list is used as is, and a present non-list value
would make the Python `for` raise (modelled as an error). -/
def dataTypesOf (input : List (String × Value)) : Except String (List Value) :=
  match input.lookup "data_types" with
  | some (Value.listV l) => Except.ok l
  | some _ => Except.error "TypeError: data_types is not iterable"
  | none => Except.ok defaultDataTypes

/-- `DataCollectionAgent.execute`: reads `stock_code` and `data_types` from
the task input, runs the collection loop, and returns an `AgentResult` built
with `success=True`; the `error_msg` and `execution_time` fields are left at
their dataclass defaults.  There is no exception handler, so a fault raised
by a data source propagates past the `execute` boundary. -/
def DataCollectionAgent.execute (ds : DataSources) (task : AgentTask) :
    Except String AgentResult :=
  match dataTypesOf task.input_data with
  | Except.error e => Except.error e
  | Except.ok data_types =>
    match collectLoop ds (task.input_data.lookup "stock_code") data_types [] with
    | Except.error e => Except.error e
    | Except.ok result_data =>
        Except.ok { task_id := task.task_id, success := true, data := result_data }

/-- Wall-clock timing model for one `DataCollectionAgent.execute` call: each
data-source fetch is assigned a fixed duration and the measured duration of
the run is the sum over the fetches the loop performs (stated for runs where
every fetch returns normally). -/
def collectionDuration (dp df dn : ℚ) : List Value → ℚ
  | [] => 0
  | Value.str "price" :: rest => dp + collectionDuration dp df dn rest
  | Value.str "financial" :: rest => df + collectionDuration dp df dn rest
  | Value.str "news" :: rest => dn + collectionDuration dp df dn rest
  | _ :: rest => collectionDuration dp df dn rest

/-- Measured duration of an `execute` call on a task, resolving `data_types`
exactly the way `DataCollectionAgent.execute` does. -/
def executeDuration (dp df dn : ℚ) (task : AgentTask) : ℚ :=
  match dataTypesOf task.input_data with
  | Except.ok l => collectionDuration dp df dn l
  | Except.error _ => 0

/-- Encoding of an `AgentResult` object when it is placed inside a payload
dictionary (the orchestrator puts the raw result objects of the three
analyses into the `analysis_results` entry of the risk and strategy task
inputs). -/
def encodeAgentResult (r : AgentResult) : Value :=
  Value.dict
    [("task_id", Value.str r.task_id),
     ("success", Value.boolV r.success),
     ("data", Value.dict r.data),
     ("error_msg",
       match r.error_msg with
       | some m => Value.str m
       | none => Value.nullV),
     ("execution_time", Value.num r.execution_time)]

/-- The agent registry of `AnalysisOrchestrator`: one bound `execute`
implementation per agent name.  A call either returns an `AgentResult` or
raises (modelled as `Except.error` with the exception message). -/
structure Agents where
  data_collector : AgentTask → Except String AgentResult
  fundamental : AgentTask → Except String AgentResult
  technical : AgentTask → Except String AgentResult
  sentiment : AgentTask → Except String AgentResult
  risk : AgentTask → Except String AgentResult
  strategy : AgentTask → Except String AgentResult

/-- The data-collection task built at step 1 of `analyze_stock`. -/
def mkDataTask (stock_code : String) : AgentTask :=
  { task_id := "data_" ++ stock_code
    task_type := "data_collection"
    input_data := [("stock_code", Value.str stock_code)] }

/-- The fundamental-analysis task of step 2, fed the data-collection output. -/
def mkFundamentalTask (stock_code : String) (data : List (String × Value)) :
    AgentTask :=
  { task_id := "fundamental_" ++ stock_code
    task_type := "fundamental_analysis"
    input_data := data }

/-- The technical-analysis task of step 2, fed the data-collection output. -/
def mkTechnicalTask (stock_code : String) (data : List (String × Value)) :
    AgentTask :=
  { task_id := "technical_" ++ stock_code
    task_type := "technical_analysis"
    input_data := data }

/-- The sentiment-analysis task of step 2, fed the data-collection output. -/
def mkSentimentTask (stock_code : String) (data : List (String × Value)) :
    AgentTask :=
  { task_id := "sentiment_" ++ stock_code
    task_type := "sentiment_analysis"
    input_data := data }

/-- The risk-assessment task of step 3: its input carries the full list of
gathered analysis result objects plus the user profile. -/
def mkRiskTask (stock_code : String) (analysis_results : List AgentResult)
    (user_profile : List (String × Value)) : AgentTask :=
  { task_id := "risk_" ++ stock_code
    task_type := "risk_assessment"
    input_data :=
      [("analysis_results", Value.listV (analysis_results.map encodeAgentResult)),
       ("user_profile", Value.dict user_profile)] }

/-- The strategy-generation task of step 4: its input carries the gathered
analysis result objects, the risk output and the user profile. -/
def mkStrategyTask (stock_code : String) (analysis_results : List AgentResult)
    (risk_data : List (String × Value)) (user_profile : List (String × Value)) :
    AgentTask :=
  { task_id := "strategy_" ++ stock_code
    task_type := "strategy_generation"
    input_data :=
      [("analysis_results", Value.listV (analysis_results.map encodeAgentResult)),
       ("risk_assessment", Value.dict risk_data),
       ("user_profile", Value.dict user_profile)] }

/-- Observable scheduling events of one run: a task of the given type is
dispatched to its agent, or the dispatched call settles by returning an
`AgentResult` (successful or not). -/
inductive TaskEvent where
  | started : String → TaskEvent
  | settled : String → TaskEvent
  deriving DecidableEq

/-- The six events of the `asyncio.gather` stage in one canonical order.
The gather stage runs the three analyses concurrently, so a run may observe
any interleaving; theorems about traces quantify over permutations of this
list. -/
def gatherEvents : List TaskEvent :=
  [TaskEvent.started "fundamental_analysis", TaskEvent.settled "fundamental_analysis",
   TaskEvent.started "technical_analysis", TaskEvent.settled "technical_analysis",
   TaskEvent.started "sentiment_analysis", TaskEvent.settled "sentiment_analysis"]

/-- First exception raised by the gather stage, when at least one of the three
analysis calls raised. -/
def firstError (a b c : Except String AgentResult) : String :=
  match a, b, c with
  | Except.error e, _, _ => e
  | _, Except.error e, _ => e
  | _, _, Except.error e => e
  | _, _, _ => ""

/-- The dictionary returned at the end of `analyze_stock`: five keys, the
`analysis` entry binding the gathered results positionally (index 0 is the
result of the fundamental task, 1 of the technical task, 2 of the sentiment
task, the order in which the tasks were appended), the risk and strategy
outputs passed through unchanged, and the current timestamp. -/
def finalDict (stock_code : String) (rf rt rs risk_result strategy_result : AgentResult)
    (now : String) : List (String × Value) :=
  [("stock_code", Value.str stock_code),
   ("analysis", Value.dict
     [("fundamental", Value.dict rf.data),
      ("technical", Value.dict rt.data),
      ("sentiment", Value.dict rs.data)]),
   ("risk_assessment", Value.dict risk_result.data),
   ("investment_strategy", Value.dict strategy_result.data),
   ("timestamp", Value.str now)]

/-- `AnalysisOrchestrator.analyze_stock`, instrumented with the scheduling
trace.  Control flow is exactly that of the source: the data-collection call
is awaited first (its result is never inspected for success); the three
analysis tasks are then built from its `data` field and gathered; the risk
task is awaited on all three gathered results; the strategy task is awaited
on those results plus the risk output; the returned dictionary binds the
gathered results positionally.  `sched` is the interleaving the concurrent
gather stage exhibits (any permutation of `gatherEvents`); `now` is the
timestamp `datetime.now().isoformat()` reads.  An exception anywhere aborts
the run with that exception; when one of the gathered analyses raises, all
three tasks were nevertheless dispatched. -/
def analyze_stock (ag : Agents) (sched : List TaskEvent) (stock_code : String)
    (user_profile : List (String × Value)) (now : String) :
    List TaskEvent × Except String (List (String × Value)) :=
  match ag.data_collector (mkDataTask stock_code) with
  | Except.error e => ([TaskEvent.started "data_collection"], Except.error e)
  | Except.ok data_result =>
    match ag.fundamental (mkFundamentalTask stock_code data_result.data),
          ag.technical (mkTechnicalTask stock_code data_result.data),
          ag.sentiment (mkSentimentTask stock_code data_result.data) with
    | Except.ok rf, Except.ok rt, Except.ok rs =>
      match ag.risk (mkRiskTask stock_code [rf, rt, rs] user_profile) with
      | Except.error e =>
          ([TaskEvent.started "data_collection", TaskEvent.settled "data_collection"] ++
             sched ++ [TaskEvent.started "risk_assessment"],
           Except.error e)
      | Except.ok risk_result =>
        match ag.strategy
            (mkStrategyTask stock_code [rf, rt, rs] risk_result.data user_profile) with
        | Except.error e =>
            ([TaskEvent.started "data_collection", TaskEvent.settled "data_collection"] ++
               sched ++
               [TaskEvent.started "risk_assessment", TaskEvent.settled "risk_assessment",
                TaskEvent.started "strategy_generation"],
             Except.error e)
        | Except.ok strategy_result =>
            ([TaskEvent.started "data_collection", TaskEvent.settled "data_collection"] ++
               sched ++
               [TaskEvent.started "risk_assessment", TaskEvent.settled "risk_assessment",
                TaskEvent.started "strategy_generation", TaskEvent.settled "strategy_generation"],
             Except.ok (finalDict stock_code rf rt rs risk_result strategy_result now))
    | ef, et, es =>
        ([TaskEvent.started "data_collection", TaskEvent.settled "data_collection",
          TaskEvent.started "fundamental_analysis",
          TaskEvent.started "technical_analysis",
          TaskEvent.started "sentiment_analysis"],
         Except.error (firstError ef et es))

/-- Analysis kinds a caller may select in a `StockAnalysisRequest`. -/
inductive AnalysisType where
  | fundamental : AnalysisType
  | technical : AnalysisType
  | sentiment : AnalysisType
  deriving DecidableEq

/-- `StockAnalysisRequest` of the frontend type module: the subject stock and
the set of requested analysis kinds. -/
structure StockAnalysisRequest where
  stock_code : String
  analysis_types : List AnalysisType

/-- Running the orchestrator for a request: `analyze_stock` receives only the
stock code and the user profile, so the requested `analysis_types` of the
request have no channel into the run. -/
def run_request (ag : Agents) (sched : List TaskEvent) (req : StockAnalysisRequest)
    (user_profile : List (String × Value)) (now : String) :
    List TaskEvent × Except String (List (String × Value)) :=
  analyze_stock ag sched req.stock_code user_profile now

/-- The three task-type names of the parallel analysis stage. -/
def analysisKindNames : List String :=
  ["fundamental_analysis", "technical_analysis", "sentiment_analysis"]

/-! Concrete analyzer stubs and payloads used to evaluate the embedding on
closed inputs. -/

/-- Analyzer stub that returns a successful result with a fixed payload. -/
def okAgentWith (d : List (String × Value)) : AgentTask → Except String AgentResult :=
  fun t => Except.ok { task_id := t.task_id, success := true, data := d }

/-- Analyzer stub that settles normally but reports failure. -/
def failedAgentWith (d : List (String × Value)) : AgentTask → Except String AgentResult :=
  fun t => Except.ok { task_id := t.task_id, success := false, data := d }

/-- Analyzer stub that raises. -/
def raisingAgent (msg : String) : AgentTask → Except String AgentResult :=
  fun _ => Except.error msg

/-- The successful result `okAgentWith d` yields on task `t`. -/
def resOf (t : AgentTask) (d : List (String × Value)) : AgentResult :=
  { task_id := t.task_id, success := true, data := d }

/-- The failed result `failedAgentWith d` yields on task `t`. -/
def failedResOf (t : AgentTask) (d : List (String × Value)) : AgentResult :=
  { task_id := t.task_id, success := false, data := d }

/-- Data-collection payload fixture. -/
def dcData : List (String × Value) := [("price_data", Value.num 10)]

/-- Fundamental-analysis payload fixture. -/
def fundData : List (String × Value) := [("score", Value.num 80)]

/-- Technical-analysis payload fixture. -/
def techData : List (String × Value) := [("score", Value.num 60)]

/-- Sentiment-analysis payload fixture. -/
def sentData : List (String × Value) := [("score", Value.num 70)]

/-- Risk-assessment payload fixture. -/
def riskData : List (String × Value) := [("risk_level", Value.str "medium")]

/-- A strategy output in the shape of the `StrategyResult` record, with the
given confidence. -/
def buyStrategyData (confidence : ℚ) : List (String × Value) :=
  [("recommendation", Value.str "buy"),
   ("confidence", Value.num confidence),
   ("target_price", Value.num 120),
   ("stop_loss", Value.num 95),
   ("position_size", Value.num (1/10)),
   ("reasoning", Value.str "momentum")]

/-- Registry in which every agent settles successfully. -/
def agOk : Agents :=
  { data_collector := okAgentWith dcData
    fundamental := okAgentWith fundData
    technical := okAgentWith techData
    sentiment := okAgentWith sentData
    risk := okAgentWith riskData
    strategy := okAgentWith (buyStrategyData 90) }

/-- Registry whose data-collection agent raises. -/
def agRaise : Agents :=
  { agOk with data_collector := raisingAgent "ConnectionError: market data unavailable" }

/-- Registry whose data-collection agent settles with a failed result. -/
def agFailedDC : Agents :=
  { agOk with data_collector := failedAgentWith [] }

/-- Registry in which all three sub-analyses settle with failed results. -/
def agAllSubFail : Agents :=
  { agOk with
      fundamental := failedAgentWith []
      technical := failedAgentWith []
      sentiment := failedAgentWith [] }

/-- Registry in which the fundamental analysis fails while the strategy agent
reports confidence 100. -/
def agFundFail : Agents :=
  { agOk with
      fundamental := failedAgentWith []
      strategy := okAgentWith (buyStrategyData 100) }

/-- Data sources that all answer. -/
def dsOk : DataSources :=
  { fetch_price_data := fun _ => Except.ok (Value.num 10)
    fetch_financial_data := fun _ => Except.ok (Value.num 20)
    fetch_news_data := fun _ => Except.ok (Value.listV []) }

/-- Data sources whose price provider raises. -/
def dsPriceFault : DataSources :=
  { dsOk with fetch_price_data := fun _ => Except.error "ConnectionError: provider down" }

/-- The result `DataCollectionAgent.execute dsOk` produces on the task the
orchestrator builds for stock 000001. -/
def dcOkResult : AgentResult :=
  resOf (mkDataTask "000001")
    [("price_data", Value.num 10), ("financial_data", Value.num 20),
     ("news_data", Value.listV [])]

/-- A request selecting only the fundamental analysis (a proper subset). -/
def reqFundOnly : StockAnalysisRequest :=
  { stock_code := "000001", analysis_types := [AnalysisType.fundamental] }

/-- A request for the same stock selecting all three analyses. -/
def reqAll : StockAnalysisRequest :=
  { stock_code := "000001"
    analysis_types := [AnalysisType.fundamental, AnalysisType.technical, AnalysisType.sentiment] }

/-- Result of the data-collection stage under `agOk`. -/
def rDC : AgentResult := resOf (mkDataTask "000001") dcData

/-- Result of the fundamental task under `agOk`. -/
def rF : AgentResult := resOf (mkFundamentalTask "000001" dcData) fundData

/-- Result of the technical task under `agOk`. -/
def rT : AgentResult := resOf (mkTechnicalTask "000001" dcData) techData

/-- Result of the sentiment task under `agOk`. -/
def rS : AgentResult := resOf (mkSentimentTask "000001" dcData) sentData

/-- Result of the risk task under `agOk` with an empty user profile. -/
def rRisk : AgentResult := resOf (mkRiskTask "000001" [rF, rT, rS] []) riskData

/-- Result of the strategy task under `agOk` with an empty user profile. -/
def rStrat : AgentResult :=
  resOf (mkStrategyTask "000001" [rF, rT, rS] riskData []) (buyStrategyData 90)

/-- Field access on the outcome of a run: the value bound to a key of the
returned dictionary, `none` when the run raised or the key is absent. -/
def resultField (out : Except String (List (String × Value))) (k : String) :
    Option Value :=
  match out with
  | Except.ok res => res.lookup k
  | Except.error _ => none

/-- Failed result of the fundamental task (payload empty). -/
def rFfail : AgentResult := failedResOf (mkFundamentalTask "000001" dcData) []

/-- Failed result of the technical task (payload empty). -/
def rTfail : AgentResult := failedResOf (mkTechnicalTask "000001" dcData) []

/-- Failed result of the sentiment task (payload empty). -/
def rSfail : AgentResult := failedResOf (mkSentimentTask "000001" dcData) []

/-- Risk result of the run in which all three sub-analyses failed. -/
def rRiskAllFail : AgentResult :=
  resOf (mkRiskTask "000001" [rFfail, rTfail, rSfail] []) riskData

/-- Strategy result of the run in which all three sub-analyses failed. -/
def rStratAllFail : AgentResult :=
  resOf (mkStrategyTask "000001" [rFfail, rTfail, rSfail] riskData []) (buyStrategyData 90)

/-- Risk result of the run in which only the fundamental analysis failed. -/
def rRiskFundFail : AgentResult :=
  resOf (mkRiskTask "000001" [rFfail, rT, rS] []) riskData

/-- Strategy result (confidence 100) of the run in which only the fundamental
analysis failed. -/
def rStratFundFail : AgentResult :=
  resOf (mkStrategyTask "000001" [rFfail, rT, rS] riskData []) (buyStrategyData 100)

/-! Helper lemmas shared by the claim theorems. -/

/-- Whenever `DataCollectionAgent.execute` settles with a result, that result
carries `success=true` and the dataclass defaults for the remaining fields. -/
theorem execute_ok_inv (ds : DataSources) (task : AgentTask) (r : AgentResult)
    (h : DataCollectionAgent.execute ds task = Except.ok r) :
    r.success = true ∧ r.error_msg = none ∧ r.execution_time = 0 := by
  unfold DataCollectionAgent.execute at h
  split at h
  · simp at h
  · split at h
    · simp at h
    · injection h with h'
      exact ⟨h' ▸ rfl, h' ▸ rfl, h' ▸ rfl⟩

/-- Value of one `analyze_stock` run in which every awaited agent call
settles: the run returns the final dictionary built from the settled
results. -/
theorem analyze_stock_ok (ag : Agents) (sched : List TaskEvent) (sc : String)
    (up : List (String × Value)) (now : String) (d rf rt rs rr sr : AgentResult)
    (hdc : ag.data_collector (mkDataTask sc) = Except.ok d)
    (hf : ag.fundamental (mkFundamentalTask sc d.data) = Except.ok rf)
    (ht : ag.technical (mkTechnicalTask sc d.data) = Except.ok rt)
    (hs : ag.sentiment (mkSentimentTask sc d.data) = Except.ok rs)
    (hr : ag.risk (mkRiskTask sc [rf, rt, rs] up) = Except.ok rr)
    (hst : ag.strategy (mkStrategyTask sc [rf, rt, rs] rr.data up) = Except.ok sr) :
    (analyze_stock ag sched sc up now).2 =
      Except.ok (finalDict sc rf rt rs rr sr now) := by
  simp only [analyze_stock, hdc, hf, ht, hs, hr, hst]

/-- Every trace of `analyze_stock` has one of the shapes determined by which
awaited call, if any, raised: the run stops at data collection, stops at a
raising gather stage after dispatching all three analyses, or passes the
gather stage and extends into the risk/strategy suffix. -/
theorem trace_shape (ag : Agents) (sched : List TaskEvent) (sc : String)
    (up : List (String × Value)) (now : String) :
    (analyze_stock ag sched sc up now).1 = [TaskEvent.started "data_collection"] ∨
    (analyze_stock ag sched sc up now).1 =
      [TaskEvent.started "data_collection", TaskEvent.settled "data_collection",
       TaskEvent.started "fundamental_analysis", TaskEvent.started "technical_analysis",
       TaskEvent.started "sentiment_analysis"] ∨
    ∃ tail,
      (analyze_stock ag sched sc up now).1 =
        [TaskEvent.started "data_collection", TaskEvent.settled "data_collection"] ++
          sched ++ tail ∧
      (tail = [TaskEvent.started "risk_assessment"] ∨
       tail = [TaskEvent.started "risk_assessment", TaskEvent.settled "risk_assessment",
               TaskEvent.started "strategy_generation"] ∨
       tail = [TaskEvent.started "risk_assessment", TaskEvent.settled "risk_assessment",
               TaskEvent.started "strategy_generation",
               TaskEvent.settled "strategy_generation"]) := by
  unfold analyze_stock
  split
  · exact Or.inl rfl
  · split
    · split
      · exact Or.inr (Or.inr ⟨_, rfl, Or.inl rfl⟩)
      · split
        · exact Or.inr (Or.inr ⟨_, rfl, Or.inr (Or.inl rfl)⟩)
        · exact Or.inr (Or.inr ⟨_, rfl, Or.inr (Or.inr rfl)⟩)
    · exact Or.inr (Or.inl rfl)

/-- If an element of an appended list is found at index `i` but does not
occur in the prefix, the index lies in the suffix. -/
theorem getElem?_append_not_mem {l₁ l₂ : List TaskEvent} {i : ℕ} {x : TaskEvent}
    (h : (l₁ ++ l₂)[i]? = some x) (hx : x ∉ l₁) :
    l₁.length ≤ i ∧ l₂[i - l₁.length]? = some x := by
  rcases Nat.lt_or_ge i l₁.length with hi | hi
  · rw [List.getElem?_append_left hi] at h
    exact absurd (List.getElem?_mem h) hx
  · rw [List.getElem?_append_right hi] at h
    exact ⟨hi, h⟩

/-- If an element of an appended list is found at index `i` but does not
occur in the suffix, the index lies in the prefix. -/
theorem getElem?_append_lt_of_not_mem_right {l₁ l₂ : List TaskEvent} {i : ℕ}
    {x : TaskEvent} (h : (l₁ ++ l₂)[i]? = some x) (hx : x ∉ l₂) :
    i < l₁.length := by
  rcases Nat.lt_or_ge i l₁.length with hi | hi
  · exact hi
  · rw [List.getElem?_append_right hi] at h
    exact absurd (List.getElem?_mem h) hx

/-- Whenever data collection settles, each of the three analysis start events
occurs in the trace, whatever the gather interleaving. -/
theorem start_mem_trace (ag : Agents) (sched : List TaskEvent) (sc : String)
    (up : List (String × Value)) (now : String) (hp : sched.Perm gatherEvents)
    (d : AgentResult) (hdc : ag.data_collector (mkDataTask sc) = Except.ok d)
    (x : TaskEvent) (hx1 : x ∈ gatherEvents)
    (hx2 : x ∈ [TaskEvent.started "fundamental_analysis",
                TaskEvent.started "technical_analysis",
                TaskEvent.started "sentiment_analysis"]) :
    x ∈ (analyze_stock ag sched sc up now).1 := by
  have hm : x ∈ sched := hp.mem_iff.mpr hx1
  simp only [analyze_stock, hdc]
  split
  · split
    · simp [List.mem_append, hm]
    · split
      · simp [List.mem_append, hm]
      · simp [List.mem_append, hm]
  · have hx3 : x = TaskEvent.started "fundamental_analysis" ∨
        x = TaskEvent.started "technical_analysis" ∨
        x = TaskEvent.started "sentiment_analysis" := by
      simpa using hx2
    rcases hx3 with rfl | rfl | rfl <;> simp

/-! Claim theorems. -/

/-- C1 counterexample: the claim says a failed data_collection drives the run
to Failed with no other task kind dispatched; on a run whose data-collection
agent settles with success = false, the code never inspects the flag: the
downstream tasks are dispatched anyway and the run completes normally. -/
theorem C1_counterexample :
    agFailedDC.data_collector (mkDataTask "000001") =
      Except.ok (failedResOf (mkDataTask "000001") []) ∧
    (failedResOf (mkDataTask "000001") []).success = false ∧
    TaskEvent.started "technical_analysis" ∈
      (analyze_stock agFailedDC gatherEvents "000001" [] "t0").1 ∧
    ((analyze_stock agFailedDC gatherEvents "000001" [] "t0").2).toOption.isSome = true := by
  exact ⟨rfl, rfl, by decide, rfl⟩

/-- C1 amended: only an exception from the data-collection agent stops the
run (the exception propagates before any other task is dispatched); a
data-collection result that merely reports success = false does not stop the
run, and every downstream analysis task is still dispatched. -/
theorem C1_amended_fatal_short_circuit (ag : Agents) (sched : List TaskEvent)
    (sc : String) (up : List (String × Value)) (now : String) :
    (∀ e, ag.data_collector (mkDataTask sc) = Except.error e →
       (analyze_stock ag sched sc up now).1 = [TaskEvent.started "data_collection"] ∧
       (analyze_stock ag sched sc up now).2 = Except.error e) ∧
    (∀ d, ag.data_collector (mkDataTask sc) = Except.ok d → sched.Perm gatherEvents →
       TaskEvent.started "fundamental_analysis" ∈ (analyze_stock ag sched sc up now).1 ∧
       TaskEvent.started "technical_analysis" ∈ (analyze_stock ag sched sc up now).1 ∧
       TaskEvent.started "sentiment_analysis" ∈ (analyze_stock ag sched sc up now).1) := by
  constructor
  · intro e he
    simp [analyze_stock, he]
  · intro d hd hp
    exact ⟨start_mem_trace ag sched sc up now hp d hd _ (by decide) (by decide),
           start_mem_trace ag sched sc up now hp d hd _ (by decide) (by decide),
           start_mem_trace ag sched sc up now hp d hd _ (by decide) (by decide)⟩

/-- Witness for C1: a raising data-collection agent stops the concrete run
with only the data-collection dispatch in the trace, while a settling one
leads to the fundamental task being dispatched. -/
theorem C1_witness :
    ((analyze_stock agRaise gatherEvents "000001" [] "t0").1 =
       [TaskEvent.started "data_collection"] ∧
     (analyze_stock agRaise gatherEvents "000001" [] "t0").2 =
       Except.error "ConnectionError: market data unavailable") ∧
    TaskEvent.started "fundamental_analysis" ∈
      (analyze_stock agOk gatherEvents "000001" [] "t0").1 :=
  ⟨(C1_amended_fatal_short_circuit agRaise gatherEvents "000001" [] "t0").1 _ rfl,
   ((C1_amended_fatal_short_circuit agOk gatherEvents "000001" [] "t0").2 rDC rfl
      (List.Perm.refl _)).1⟩

/-- C5 counterexample: the claim says only the requested kinds are executed;
for a request selecting only the fundamental analysis, the run still
dispatches the technical and sentiment tasks. -/
theorem C5_counterexample :
    AnalysisType.technical ∉ reqFundOnly.analysis_types ∧
    AnalysisType.sentiment ∉ reqFundOnly.analysis_types ∧
    TaskEvent.started "technical_analysis" ∈
      (run_request agOk gatherEvents reqFundOnly [] "t0").1 ∧
    TaskEvent.started "sentiment_analysis" ∈
      (run_request agOk gatherEvents reqFundOnly [] "t0").1 := by
  exact ⟨by decide, by decide, by decide, by decide⟩

/-- C5 amended: the run of a request is a function of its stock code alone -
the requested analysis_types subset has no channel into `analyze_stock` - and
whenever data collection settles, all three sub-analyses are dispatched
regardless of the requested subset. -/
theorem C5_amended_requested_subset_ignored (ag : Agents) (sched : List TaskEvent)
    (req req' : StockAnalysisRequest) (up : List (String × Value)) (now : String)
    (hsc : req.stock_code = req'.stock_code) (hp : sched.Perm gatherEvents)
    (d : AgentResult)
    (hdc : ag.data_collector (mkDataTask req.stock_code) = Except.ok d) :
    run_request ag sched req up now = run_request ag sched req' up now ∧
    TaskEvent.started "fundamental_analysis" ∈ (run_request ag sched req up now).1 ∧
    TaskEvent.started "technical_analysis" ∈ (run_request ag sched req up now).1 ∧
    TaskEvent.started "sentiment_analysis" ∈ (run_request ag sched req up now).1 := by
  refine ⟨by rw [run_request, run_request, hsc], ?_, ?_, ?_⟩ <;>
    exact start_mem_trace ag sched req.stock_code up now hp d hdc _ (by decide) (by decide)

/-- Witness for C5: a request selecting only the fundamental analysis and a
request selecting all three produce identical runs, with every analysis task
dispatched. -/
theorem C5_witness :
    run_request agOk gatherEvents reqFundOnly [] "t0" =
      run_request agOk gatherEvents reqAll [] "t0" ∧
    TaskEvent.started "fundamental_analysis" ∈
      (run_request agOk gatherEvents reqFundOnly [] "t0").1 ∧
    TaskEvent.started "technical_analysis" ∈
      (run_request agOk gatherEvents reqFundOnly [] "t0").1 ∧
    TaskEvent.started "sentiment_analysis" ∈
      (run_request agOk gatherEvents reqFundOnly [] "t0").1 :=
  C5_amended_requested_subset_ignored agOk gatherEvents reqFundOnly reqAll [] "t0" rfl
    (List.Perm.refl _) rDC rfl

/-- C9: for every input task and every data-source behaviour, whenever
`DataCollectionAgent.execute` settles at its public boundary it reports
`success = true`; no outcome makes it report a failed result. -/
theorem C9_data_collection_always_success (ds : DataSources) (task : AgentTask)
    (r : AgentResult) (h : DataCollectionAgent.execute ds task = Except.ok r) :
    r.success = true :=
  (execute_ok_inv ds task r h).1

/-- Witness for C9: concrete data sources and the orchestrator-built task for
stock 000001 give a result with `success = true`. -/
theorem C9_witness :
    DataCollectionAgent.execute dsOk (mkDataTask "000001") = Except.ok dcOkResult ∧
    dcOkResult.success = true :=
  ⟨rfl, C9_data_collection_always_success dsOk (mkDataTask "000001") dcOkResult rfl⟩

/-- C8 counterexample: the claim says the produced result records the actual
wall-clock execution duration; on a run whose fetches take 2, 3 and 4 time
units (measured duration 9), the returned `execution_time` is 0, the
dataclass default, which the agent never overwrites. -/
theorem C8_counterexample :
    DataCollectionAgent.execute dsOk (mkDataTask "000001") = Except.ok dcOkResult ∧
    dcOkResult.execution_time = 0 ∧
    executeDuration 2 3 4 (mkDataTask "000001") = 9 ∧
    (0 : ℚ) ≠ 9 := by
  refine ⟨rfl, rfl, ?_, by norm_num⟩
  show collectionDuration 2 3 4 defaultDataTypes = 9
  show (2 : ℚ) + (3 + (4 + 0)) = 9
  norm_num

/-- C8 amended: the `execution_time` field of every result the
data-collection agent returns is the dataclass default 0; the measured
duration of the run is never recorded. -/
theorem C8_amended_execution_time_zero (ds : DataSources) (task : AgentTask)
    (r : AgentResult) (h : DataCollectionAgent.execute ds task = Except.ok r) :
    r.execution_time = 0 :=
  (execute_ok_inv ds task r h).2.2

/-- Witness for C8: the amended theorem evaluated on the concrete run of
`C8_counterexample`. -/
theorem C8_witness : dcOkResult.execution_time = 0 :=
  C8_amended_execution_time_zero dsOk (mkDataTask "000001") dcOkResult rfl

/-- C3 counterexample: the claim says task execution always yields a result
and never propagates an exception past the executor boundary; with a price
provider that raises, `DataCollectionAgent.execute` propagates the exception
and yields no result. -/
theorem C3_counterexample :
    DataCollectionAgent.execute dsPriceFault (mkDataTask "000001") =
      Except.error "ConnectionError: provider down" ∧
    (DataCollectionAgent.execute dsPriceFault (mkDataTask "000001")).toOption = none :=
  ⟨rfl, rfl⟩

/-- C3 amended: the agent settles with a result only when every underlying
fetch returns; such a result always has `success = true` and carries no error
classification (`error_msg = none`); a fault raised by the price provider
propagates past the `execute` boundary as the raw exception with its message
preserved verbatim. -/
theorem C3_amended_executor_boundary (ds : DataSources) (task : AgentTask) :
    (∀ r : AgentResult, DataCollectionAgent.execute ds task = Except.ok r →
       r.success = true ∧ r.error_msg = none) ∧
    (∀ sc msg, ds.fetch_price_data (some (Value.str sc)) = Except.error msg →
       DataCollectionAgent.execute ds (mkDataTask sc) = Except.error msg) := by
  constructor
  · intro r h
    exact ⟨(execute_ok_inv ds task r h).1, (execute_ok_inv ds task r h).2.1⟩
  · intro sc msg hmsg
    simp only [DataCollectionAgent.execute, dataTypesOf, mkDataTask, defaultDataTypes,
               List.lookup, hmsg]
    simp [collectLoop, collectStep, hmsg]

/-- Witness for C3: the amended theorem evaluated on concrete data sources,
in both the settled and the raising case. -/
theorem C3_witness :
    (dcOkResult.success = true ∧ dcOkResult.error_msg = none) ∧
    DataCollectionAgent.execute dsPriceFault (mkDataTask "000001") =
      Except.error "ConnectionError: provider down" :=
  ⟨(C3_amended_executor_boundary dsOk (mkDataTask "000001")).1 dcOkResult rfl,
   (C3_amended_executor_boundary dsPriceFault (mkDataTask "000001")).2 "000001"
     "ConnectionError: provider down" rfl⟩

/-- C10: every run that returns yields a record with exactly the keys
stock_code, analysis, risk_assessment, investment_strategy and timestamp, and
its analysis map binds fundamental, technical and sentiment positionally to
the first, second and third gathered results, the outputs of the agents whose
tasks were created in that order. -/
theorem C10_result_shape (ag : Agents) (sched : List TaskEvent) (sc : String)
    (up : List (String × Value)) (now : String) (d rf rt rs rr sr : AgentResult)
    (hdc : ag.data_collector (mkDataTask sc) = Except.ok d)
    (hf : ag.fundamental (mkFundamentalTask sc d.data) = Except.ok rf)
    (ht : ag.technical (mkTechnicalTask sc d.data) = Except.ok rt)
    (hs : ag.sentiment (mkSentimentTask sc d.data) = Except.ok rs)
    (hr : ag.risk (mkRiskTask sc [rf, rt, rs] up) = Except.ok rr)
    (hst : ag.strategy (mkStrategyTask sc [rf, rt, rs] rr.data up) = Except.ok sr) :
    (analyze_stock ag sched sc up now).2 =
      Except.ok (finalDict sc rf rt rs rr sr now) ∧
    (finalDict sc rf rt rs rr sr now).map Prod.fst =
      ["stock_code", "analysis", "risk_assessment", "investment_strategy", "timestamp"] ∧
    (finalDict sc rf rt rs rr sr now).lookup "analysis" =
      some (Value.dict
        [("fundamental", Value.dict rf.data),
         ("technical", Value.dict rt.data),
         ("sentiment", Value.dict rs.data)]) :=
  ⟨analyze_stock_ok ag sched sc up now d rf rt rs rr sr hdc hf ht hs hr hst,
   rfl, rfl⟩

/-- Witness for C10: the result shape evaluated on a concrete successful
run. -/
theorem C10_witness :
    (analyze_stock agOk gatherEvents "000001" [] "t0").2 =
      Except.ok (finalDict "000001" rF rT rS rRisk rStrat "t0") ∧
    (finalDict "000001" rF rT rS rRisk rStrat "t0").map Prod.fst =
      ["stock_code", "analysis", "risk_assessment", "investment_strategy", "timestamp"] ∧
    (finalDict "000001" rF rT rS rRisk rStrat "t0").lookup "analysis" =
      some (Value.dict
        [("fundamental", Value.dict rF.data),
         ("technical", Value.dict rT.data),
         ("sentiment", Value.dict rS.data)]) :=
  C10_result_shape agOk gatherEvents "000001" [] "t0" rDC rF rT rS rRisk rStrat
    rfl rfl rfl rfl rfl rfl

/-- C7: the fields of the final record that carry the recommendation are a
deterministic function of the settled task results: two finalizations over
identical result values, even under different registries, gather
interleavings and clock readings, agree on the investment_strategy (action
and confidence), risk_assessment and analysis entries. -/
theorem C7_deterministic_finalization
    (ag ag' : Agents) (sched sched' : List TaskEvent) (sc : String)
    (up : List (String × Value)) (now now' : String) (d rf rt rs rr sr : AgentResult)
    (hdc : ag.data_collector (mkDataTask sc) = Except.ok d)
    (hf : ag.fundamental (mkFundamentalTask sc d.data) = Except.ok rf)
    (ht : ag.technical (mkTechnicalTask sc d.data) = Except.ok rt)
    (hs : ag.sentiment (mkSentimentTask sc d.data) = Except.ok rs)
    (hr : ag.risk (mkRiskTask sc [rf, rt, rs] up) = Except.ok rr)
    (hst : ag.strategy (mkStrategyTask sc [rf, rt, rs] rr.data up) = Except.ok sr)
    (hdc' : ag'.data_collector (mkDataTask sc) = Except.ok d)
    (hf' : ag'.fundamental (mkFundamentalTask sc d.data) = Except.ok rf)
    (ht' : ag'.technical (mkTechnicalTask sc d.data) = Except.ok rt)
    (hs' : ag'.sentiment (mkSentimentTask sc d.data) = Except.ok rs)
    (hr' : ag'.risk (mkRiskTask sc [rf, rt, rs] up) = Except.ok rr)
    (hst' : ag'.strategy (mkStrategyTask sc [rf, rt, rs] rr.data up) = Except.ok sr) :
    resultField (analyze_stock ag sched sc up now).2 "investment_strategy" =
      resultField (analyze_stock ag' sched' sc up now').2 "investment_strategy" ∧
    resultField (analyze_stock ag sched sc up now).2 "risk_assessment" =
      resultField (analyze_stock ag' sched' sc up now').2 "risk_assessment" ∧
    resultField (analyze_stock ag sched sc up now).2 "analysis" =
      resultField (analyze_stock ag' sched' sc up now').2 "analysis" := by
  rw [show (analyze_stock ag sched sc up now).2 =
        Except.ok (finalDict sc rf rt rs rr sr now) from
      analyze_stock_ok ag sched sc up now d rf rt rs rr sr hdc hf ht hs hr hst,
     show (analyze_stock ag' sched' sc up now').2 =
        Except.ok (finalDict sc rf rt rs rr sr now') from
      analyze_stock_ok ag' sched' sc up now' d rf rt rs rr sr hdc' hf' ht' hs' hr' hst']
  exact ⟨rfl, rfl, rfl⟩

/-- Witness for C7: two concrete runs over the same task results but with a
different gather interleaving and a different timestamp agree on the three
recommendation-bearing fields. -/
theorem C7_witness :
    resultField (analyze_stock agOk gatherEvents "000001" [] "2026-01-01T00:00:00").2
        "investment_strategy" =
      resultField (analyze_stock agOk gatherEvents.reverse "000001" []
        "2026-02-02T12:34:56").2 "investment_strategy" ∧
    resultField (analyze_stock agOk gatherEvents "000001" [] "2026-01-01T00:00:00").2
        "risk_assessment" =
      resultField (analyze_stock agOk gatherEvents.reverse "000001" []
        "2026-02-02T12:34:56").2 "risk_assessment" ∧
    resultField (analyze_stock agOk gatherEvents "000001" [] "2026-01-01T00:00:00").2
        "analysis" =
      resultField (analyze_stock agOk gatherEvents.reverse "000001" []
        "2026-02-02T12:34:56").2 "analysis" :=
  C7_deterministic_finalization agOk agOk gatherEvents gatherEvents.reverse "000001" []
    "2026-01-01T00:00:00" "2026-02-02T12:34:56" rDC rF rT rS rRisk rStrat
    rfl rfl rfl rfl rfl rfl rfl rfl rfl rfl rfl rfl

/-- C2 counterexample: the claim says that when all requested sub-analyses
fail the run terminates with status PartiallyCompleted, action hold and
confidence at most 20; on a run where all three sub-analyses settle with
failed results, the code completes normally and returns the strategy output
verbatim: action buy with confidence 90. -/
theorem C2_counterexample :
    agAllSubFail.fundamental (mkFundamentalTask "000001" dcData) = Except.ok rFfail ∧
    agAllSubFail.technical (mkTechnicalTask "000001" dcData) = Except.ok rTfail ∧
    agAllSubFail.sentiment (mkSentimentTask "000001" dcData) = Except.ok rSfail ∧
    rFfail.success = false ∧ rTfail.success = false ∧ rSfail.success = false ∧
    resultField (analyze_stock agAllSubFail gatherEvents "000001" [] "t0").2
        "investment_strategy" = some (Value.dict (buyStrategyData 90)) ∧
    (buyStrategyData 90).lookup "recommendation" = some (Value.str "buy") ∧
    Value.str "buy" ≠ Value.str "hold" ∧
    (buyStrategyData 90).lookup "confidence" = some (Value.num 90) ∧
    ¬(90 : ℚ) ≤ 20 := by
  refine ⟨rfl, rfl, rfl, rfl, rfl, rfl, ?_, rfl, by simp, rfl, by norm_num⟩
  rw [show (analyze_stock agAllSubFail gatherEvents "000001" [] "t0").2 =
        Except.ok (finalDict "000001" rFfail rTfail rSfail rRiskAllFail rStratAllFail "t0") from
      analyze_stock_ok agAllSubFail gatherEvents "000001" [] "t0" rDC rFfail rTfail rSfail
        rRiskAllFail rStratAllFail rfl rfl rfl rfl rfl rfl]
  rfl

/-- C2 amended: a failed fundamental/technical/sentiment result does not
abort the run, but no partial-failure policy exists: risk_assessment always
runs and its input carries all three gathered results, failed ones included,
and even when all three sub-analyses fail the run completes normally with the
strategy output passed through verbatim (no PartiallyCompleted status, no
forced hold, no confidence cap). -/
theorem C2_amended_no_partial_failure_policy
    (ag : Agents) (sched : List TaskEvent) (sc : String)
    (up : List (String × Value)) (now : String) (d rf rt rs rr sr : AgentResult)
    (hdc : ag.data_collector (mkDataTask sc) = Except.ok d)
    (hf : ag.fundamental (mkFundamentalTask sc d.data) = Except.ok rf)
    (ht : ag.technical (mkTechnicalTask sc d.data) = Except.ok rt)
    (hs : ag.sentiment (mkSentimentTask sc d.data) = Except.ok rs)
    (hr : ag.risk (mkRiskTask sc [rf, rt, rs] up) = Except.ok rr)
    (hst : ag.strategy (mkStrategyTask sc [rf, rt, rs] rr.data up) = Except.ok sr) :
    (analyze_stock ag sched sc up now).2 =
      Except.ok (finalDict sc rf rt rs rr sr now) ∧
    (mkRiskTask sc [rf, rt, rs] up).input_data.lookup "analysis_results" =
      some (Value.listV
        [encodeAgentResult rf, encodeAgentResult rt, encodeAgentResult rs]) ∧
    resultField (analyze_stock ag sched sc up now).2 "investment_strategy" =
      some (Value.dict sr.data) := by
  have hout := analyze_stock_ok ag sched sc up now d rf rt rs rr sr hdc hf ht hs hr hst
  refine ⟨hout, rfl, ?_⟩
  rw [hout]
  rfl

/-- Witness for C2: the amended theorem evaluated on the concrete run in
which all three sub-analyses settle with failed results. -/
theorem C2_witness :
    (analyze_stock agAllSubFail gatherEvents "000001" [] "t0").2 =
      Except.ok (finalDict "000001" rFfail rTfail rSfail rRiskAllFail rStratAllFail "t0") ∧
    (mkRiskTask "000001" [rFfail, rTfail, rSfail] []).input_data.lookup "analysis_results" =
      some (Value.listV
        [encodeAgentResult rFfail, encodeAgentResult rTfail, encodeAgentResult rSfail]) ∧
    resultField (analyze_stock agAllSubFail gatherEvents "000001" [] "t0").2
        "investment_strategy" = some (Value.dict rStratAllFail.data) :=
  C2_amended_no_partial_failure_policy agAllSubFail gatherEvents "000001" [] "t0"
    rDC rFfail rTfail rSfail rRiskAllFail rStratAllFail rfl rfl rfl rfl rfl rfl

/-- C6 counterexample: the claim says the final confidence equals the
strategy output confidence multiplied by 0.8 once per failed requested
sub-analysis; on a run where exactly the fundamental analysis failed and the
strategy reports confidence 100, the final record carries confidence 100, not
100 times 4/5. -/
theorem C6_counterexample :
    agFundFail.fundamental (mkFundamentalTask "000001" dcData) = Except.ok rFfail ∧
    rFfail.success = false ∧
    resultField (analyze_stock agFundFail gatherEvents "000001" [] "t0").2
        "investment_strategy" = some (Value.dict (buyStrategyData 100)) ∧
    (buyStrategyData 100).lookup "confidence" = some (Value.num 100) ∧
    (100 : ℚ) ≠ 100 * (4 / 5) := by
  refine ⟨rfl, rfl, ?_, rfl, by norm_num⟩
  rw [show (analyze_stock agFundFail gatherEvents "000001" [] "t0").2 =
        Except.ok (finalDict "000001" rFfail rT rS rRiskFundFail rStratFundFail "t0") from
      analyze_stock_ok agFundFail gatherEvents "000001" [] "t0" rDC rFfail rT rS
        rRiskFundFail rStratFundFail rfl rfl rfl rfl rfl rfl]
  rfl

/-- C6 amended: when strategy_generation settles, the final record's
investment_strategy entry is the strategy output verbatim, its confidence
included; no penalty factor is applied for failed or missing sub-analyses. -/
theorem C6_amended_strategy_verbatim
    (ag : Agents) (sched : List TaskEvent) (sc : String)
    (up : List (String × Value)) (now : String) (d rf rt rs rr sr : AgentResult)
    (hdc : ag.data_collector (mkDataTask sc) = Except.ok d)
    (hf : ag.fundamental (mkFundamentalTask sc d.data) = Except.ok rf)
    (ht : ag.technical (mkTechnicalTask sc d.data) = Except.ok rt)
    (hs : ag.sentiment (mkSentimentTask sc d.data) = Except.ok rs)
    (hr : ag.risk (mkRiskTask sc [rf, rt, rs] up) = Except.ok rr)
    (hst : ag.strategy (mkStrategyTask sc [rf, rt, rs] rr.data up) = Except.ok sr) :
    resultField (analyze_stock ag sched sc up now).2 "investment_strategy" =
      some (Value.dict sr.data) := by
  rw [show (analyze_stock ag sched sc up now).2 =
        Except.ok (finalDict sc rf rt rs rr sr now) from
      analyze_stock_ok ag sched sc up now d rf rt rs rr sr hdc hf ht hs hr hst]
  rfl

/-- Witness for C6: the amended theorem evaluated on the run in which the
fundamental analysis failed and the strategy reported confidence 100. -/
theorem C6_witness :
    resultField (analyze_stock agFundFail gatherEvents "000001" [] "t0").2
        "investment_strategy" = some (Value.dict rStratFundFail.data) :=
  C6_amended_strategy_verbatim agFundFail gatherEvents "000001" [] "t0"
    rDC rFfail rT rS rRiskFundFail rStratFundFail rfl rfl rfl rfl rfl rfl

/-- C4: ordering within every run, over every gather interleaving: the
data_collection settle event sits at position 1, before any analysis start
event; every analysis settle event precedes the risk_assessment start event;
and the risk_assessment settle event precedes the strategy_generation start
event. -/
theorem C4_task_ordering (ag : Agents) (sched : List TaskEvent) (sc : String)
    (up : List (String × Value)) (now : String) (hp : sched.Perm gatherEvents)
    (k : String) (hk : k ∈ analysisKindNames) (j1 i2 j2 i3 j3 : ℕ) :
    ((analyze_stock ag sched sc up now).1[j1]? = some (TaskEvent.started k) →
       1 < j1 ∧ (analyze_stock ag sched sc up now).1[1]? =
         some (TaskEvent.settled "data_collection")) ∧
    ((analyze_stock ag sched sc up now).1[i2]? = some (TaskEvent.settled k) →
       (analyze_stock ag sched sc up now).1[j2]? =
         some (TaskEvent.started "risk_assessment") → i2 < j2) ∧
    ((analyze_stock ag sched sc up now).1[i3]? =
         some (TaskEvent.settled "risk_assessment") →
       (analyze_stock ag sched sc up now).1[j3]? =
         some (TaskEvent.started "strategy_generation") → i3 < j3) := by
  have hk3 : k = "fundamental_analysis" ∨ k = "technical_analysis" ∨
      k = "sentiment_analysis" := by simpa [analysisKindNames] using hk
  have hkd : k ≠ "data_collection" := by rcases hk3 with rfl | rfl | rfl <;> decide
  have hkr : k ≠ "risk_assessment" := by rcases hk3 with rfl | rfl | rfl <;> decide
  have hks : k ≠ "strategy_generation" := by rcases hk3 with rfl | rfl | rfl <;> decide
  have hrs : TaskEvent.started "risk_assessment" ∉ sched :=
    fun hm => absurd (hp.mem_iff.mp hm) (by decide)
  have hsr : TaskEvent.settled "risk_assessment" ∉ sched :=
    fun hm => absurd (hp.mem_iff.mp hm) (by decide)
  have hss : TaskEvent.started "strategy_generation" ∉ sched :=
    fun hm => absurd (hp.mem_iff.mp hm) (by decide)
  rcases trace_shape ag sched sc up now with h | h | ⟨tail, h, htail⟩
  · rw [h]
    refine ⟨?_, ?_, ?_⟩
    · intro hj
      rcases j1 with _ | j1
      · simp at hj
        exact absurd hj.symm hkd
      · simp at hj
    · intro hi _
      rcases i2 with _ | i2 <;> simp at hi
    · intro hi _
      rcases i3 with _ | i3 <;> simp at hi
  · rw [h]
    refine ⟨?_, ?_, ?_⟩
    · intro hj
      rcases j1 with _ | _ | j1
      · simp at hj
        exact absurd hj.symm hkd
      · simp at hj
      · exact ⟨by omega, by simp⟩
    · intro _ hj
      rcases j2 with _ | _ | _ | _ | _ | j2 <;> simp at hj
    · intro _ hj
      rcases j3 with _ | _ | _ | _ | _ | j3 <;> simp at hj
  · rw [h]
    have hnpr : TaskEvent.started "risk_assessment" ∉
        [TaskEvent.started "data_collection", TaskEvent.settled "data_collection"] ++
          sched := by
      simp only [List.mem_append]
      rintro (hm | hm)
      · simp at hm
      · exact hrs hm
    have hnps : TaskEvent.settled "risk_assessment" ∉
        [TaskEvent.started "data_collection", TaskEvent.settled "data_collection"] ++
          sched := by
      simp only [List.mem_append]
      rintro (hm | hm)
      · simp at hm
      · exact hsr hm
    have hnpg : TaskEvent.started "strategy_generation" ∉
        [TaskEvent.started "data_collection", TaskEvent.settled "data_collection"] ++
          sched := by
      simp only [List.mem_append]
      rintro (hm | hm)
      · simp at hm
      · exact hss hm
    rcases htail with rfl | rfl | rfl
    · refine ⟨?_, ?_, ?_⟩
      · intro hj
        rcases j1 with _ | _ | j1
        · simp at hj
          exact absurd hj.symm hkd
        · simp at hj
        · exact ⟨by omega, by simp⟩
      · intro hi hj
        have hnt : TaskEvent.settled k ∉ [TaskEvent.started "risk_assessment"] := by simp
        have hjL := (getElem?_append_not_mem hj hnpr).1
        have hiL := getElem?_append_lt_of_not_mem_right hi hnt
        omega
      · intro hi _
        obtain ⟨hiL, hti⟩ := getElem?_append_not_mem hi hnps
        rcases hmi : i3 -
            ([TaskEvent.started "data_collection", TaskEvent.settled "data_collection"] ++
              sched).length with _ | m <;> rw [hmi] at hti <;> simp at hti
    · refine ⟨?_, ?_, ?_⟩
      · intro hj
        rcases j1 with _ | _ | j1
        · simp at hj
          exact absurd hj.symm hkd
        · simp at hj
        · exact ⟨by omega, by simp⟩
      · intro hi hj
        have hnt : TaskEvent.settled k ∉
            [TaskEvent.started "risk_assessment", TaskEvent.settled "risk_assessment",
             TaskEvent.started "strategy_generation"] := by
          simp [hkr]
        have hjL := (getElem?_append_not_mem hj hnpr).1
        have hiL := getElem?_append_lt_of_not_mem_right hi hnt
        omega
      · intro hi hj
        obtain ⟨hiL, hti⟩ := getElem?_append_not_mem hi hnps
        obtain ⟨hjL, htj⟩ := getElem?_append_not_mem hj hnpg
        rcases hmi : i3 -
            ([TaskEvent.started "data_collection", TaskEvent.settled "data_collection"] ++
              sched).length with _ | _ | _ | m <;> rw [hmi] at hti
        · simp at hti
        · rcases hmj : j3 -
              ([TaskEvent.started "data_collection", TaskEvent.settled "data_collection"] ++
                sched).length with _ | _ | _ | m2 <;> rw [hmj] at htj
          · simp at htj
          · simp at htj
          · omega
          · simp at htj
        · simp at hti
        · simp at hti
    · refine ⟨?_, ?_, ?_⟩
      · intro hj
        rcases j1 with _ | _ | j1
        · simp at hj
          exact absurd hj.symm hkd
        · simp at hj
        · exact ⟨by omega, by simp⟩
      · intro hi hj
        have hnt : TaskEvent.settled k ∉
            [TaskEvent.started "risk_assessment", TaskEvent.settled "risk_assessment",
             TaskEvent.started "strategy_generation",
             TaskEvent.settled "strategy_generation"] := by
          simp [hkr, hks]
        have hjL := (getElem?_append_not_mem hj hnpr).1
        have hiL := getElem?_append_lt_of_not_mem_right hi hnt
        omega
      · intro hi hj
        obtain ⟨hiL, hti⟩ := getElem?_append_not_mem hi hnps
        obtain ⟨hjL, htj⟩ := getElem?_append_not_mem hj hnpg
        rcases hmi : i3 -
            ([TaskEvent.started "data_collection", TaskEvent.settled "data_collection"] ++
              sched).length with _ | _ | _ | _ | m <;> rw [hmi] at hti
        · simp at hti
        · rcases hmj : j3 -
              ([TaskEvent.started "data_collection", TaskEvent.settled "data_collection"] ++
                sched).length with _ | _ | _ | _ | m2 <;> rw [hmj] at htj
          · simp at htj
          · simp at htj
          · omega
          · simp at htj
          · simp at htj
        · simp at hti
        · simp at hti
        · simp at hti

/-- Witness for C4: the ordering facts evaluated on a concrete successful run
with the canonical interleaving, at the technical kind and the concrete
positions of its start and settle events, the risk events and the strategy
start event. -/
theorem C4_witness :
    ((analyze_stock agOk gatherEvents "000001" [] "t0").1[4]? =
        some (TaskEvent.started "technical_analysis") →
      1 < 4 ∧ (analyze_stock agOk gatherEvents "000001" [] "t0").1[1]? =
        some (TaskEvent.settled "data_collection")) ∧
    ((analyze_stock agOk gatherEvents "000001" [] "t0").1[5]? =
        some (TaskEvent.settled "technical_analysis") →
      (analyze_stock agOk gatherEvents "000001" [] "t0").1[8]? =
        some (TaskEvent.started "risk_assessment") → 5 < 8) ∧
    ((analyze_stock agOk gatherEvents "000001" [] "t0").1[9]? =
        some (TaskEvent.settled "risk_assessment") →
      (analyze_stock agOk gatherEvents "000001" [] "t0").1[10]? =
        some (TaskEvent.started "strategy_generation") → 9 < 10) :=
  C4_task_ordering agOk gatherEvents "000001" [] "t0" (List.Perm.refl _)
    "technical_analysis" (by decide) 4 5 8 9 10

end InvestAI
